import Mathlib

/-!
# vercport: the CORS forwarding handlers

A shallow embedding of the two serverless handlers of the repository:

* `handler` — the Vercel function of `src/api/proxy.js`, which mutates a
  response object (`setHeader`, `status`, `send`, `end`);
* `exports.handler` — the Netlify function of `src/proxy.js`, which returns a
  `{ statusCode, headers, body }` object.

Both are `async` JavaScript functions.  A run is modelled as a pure function of
the inbound request and of the environment (the outcome of the one upstream
`fetch`, the behaviour of the `URL` constructor); it yields the list of side
effects performed, in program order, and either the value produced or the
exception that escaped.
-/

/-! ## Environment: effects, upstream outcomes, the `URL` constructor -/

/-- Side effects a handler performs, recorded in program order. -/
inductive Effect where
  | consoleLog (args : List String)
  | consoleError (args : List String)
  | fetchCall (url : String)
deriving DecidableEq, Repr

/-- Result of `await fetchResponse.text()`: the body as text, or a thrown error. -/
inductive BodyRead where
  | text (t : String)
  | throws (message : String)
deriving DecidableEq, Repr

/-- Result of `await fetch(targetUrl)`: the promise rejects with an error carrying
`message`, or resolves to a response object. -/
inductive FetchOutcome where
  | rejects (message : String)
  | resolves (status : Nat) (statusText : String) (headers : List (String × String))
      (body : BodyRead)
deriving DecidableEq, Repr

/-- The `ok` getter of a fetch response: the status is in the range 200 to 299. -/
def responseOk (status : Nat) : Bool :=
  decide (200 ≤ status) && decide (status ≤ 299)

deriving instance DecidableEq for Except

/-- An exception that escapes a handler.  Outside their `try` blocks the handlers
can raise only the `TypeError` of reading a property of `null` or `undefined`;
the property name is recorded, the message text is the runtime's. -/
inductive Thrown where
  | typeErrorReadOfNullish (property : String)
deriving DecidableEq, Repr

/-- A run of an `async` handler: the effects performed and either the value the
promise resolves to or the exception it rejects with. -/
structure Run (α : Type) where
  effects : List Effect
  result : Except Thrown α
deriving DecidableEq, Repr

/-- Number of `fetch` calls among a list of effects. -/
def fetchCount : List Effect → Nat
  | [] => 0
  | Effect.fetchCall _ :: es => fetchCount es + 1
  | _ :: es => fetchCount es

/-- C0 control or space: code points U+0000 to U+0020. -/
def isC0ControlOrSpace (c : Char) : Bool :=
  decide (c.toNat ≤ 0x20)

/-- ASCII tab or newline: U+0009, U+000A, U+000D. -/
def isAsciiTabOrNewline (c : Char) : Bool :=
  decide (c.toNat = 0x09) || decide (c.toNat = 0x0A) || decide (c.toNat = 0x0D)

/-- ASCII letter. -/
def isAsciiAlpha (c : Char) : Bool :=
  (decide (0x41 ≤ c.toNat) && decide (c.toNat ≤ 0x5A)) ||
    (decide (0x61 ≤ c.toNat) && decide (c.toNat ≤ 0x7A))

/-- ASCII digit. -/
def isAsciiDigit (c : Char) : Bool :=
  decide (0x30 ≤ c.toNat) && decide (c.toNat ≤ 0x39)

/-- Code points that may continue a scheme: ASCII alphanumeric, `+`, `-`, `.`. -/
def isSchemeChar (c : Char) : Bool :=
  isAsciiAlpha c || isAsciiDigit c ||
    decide (c.toNat = 0x2B) || decide (c.toNat = 0x2D) || decide (c.toNat = 0x2E)

/-- The scheme state of the URL parser, run without a base URL: scheme code points
are consumed until a `:` ends the scheme; any other code point, or the end of
the input, sends the parser to the no-scheme state, which fails without a base. -/
def schemeState : List Char → Bool
  | [] => false
  | c :: cs => if isSchemeChar c then schemeState cs else decide (c.toNat = 0x3A)

/-- The scheme start state of the URL parser, run without a base URL: the first
code point has to be an ASCII letter. -/
def schemeStartState : List Char → Bool
  | [] => false
  | c :: cs => isAsciiAlpha c && schemeState cs

/-- The input as the URL parser sees it: leading and trailing C0 controls and
spaces are stripped, then every ASCII tab or newline is removed. -/
def urlParserInput (input : String) : List Char :=
  (((input.toList.dropWhile isC0ControlOrSpace).reverse.dropWhile
    isC0ControlOrSpace).reverse).filter (fun c => !isAsciiTabOrNewline c)

/-- Model of the host runtime's `new URL(input)` with no base argument: `true` when
the constructor returns, `false` when it throws.  The parser first has to read
a scheme (`schemeStartState`); what it does with the remainder (authority,
host, port, path) belongs to the runtime and is the parameter `afterScheme`. -/
def newURL (afterScheme : String → Bool) (input : String) : Bool :=
  schemeStartState (urlParserInput input) && afterScheme input

/-! ## Data model -/

/-- The response triple both platforms finally deliver. -/
structure HttpResponse where
  statusCode : Nat
  headers : List (String × String)
  body : String
deriving DecidableEq, Repr

/-- Inbound Vercel request: `request.method` and `request.query`, the latter
`none` when the envelope carries no query object. -/
structure VercelRequest where
  method : String
  query : Option (List (String × String))
deriving DecidableEq, Repr

/-- Inbound Netlify event: `event.httpMethod` and `event.queryStringParameters`,
the latter `none` when the envelope carries `null`. -/
structure NetlifyEvent where
  httpMethod : String
  queryStringParameters : Option (List (String × String))
deriving DecidableEq, Repr

/-- The mutable Vercel response object, as far as the handler drives it. -/
structure VercelResponse where
  headers : List (String × String)
  statusCode : Nat
  body : String
  finished : Bool
deriving DecidableEq, Repr

/-- A fresh response object: no headers, status 200, nothing sent. -/
def VercelResponse.fresh : VercelResponse :=
  { headers := [], statusCode := 200, body := "", finished := false }

/-- Method `response.setHeader(name, value)`: replaces a header of that name
(names compared as written). -/
def VercelResponse.setHeader (r : VercelResponse) (name value : String) : VercelResponse :=
  { r with headers := r.headers.filter (fun h => h.1 != name) ++ [(name, value)] }

/-- Method `response.status(code)`. -/
def VercelResponse.status (r : VercelResponse) (code : Nat) : VercelResponse :=
  { r with statusCode := code }

/-- Method `response.send(body)`. -/
def VercelResponse.send (r : VercelResponse) (body : String) : VercelResponse :=
  { r with body := body, finished := true }

/-- Method `response.end()`. -/
def VercelResponse.end_ (r : VercelResponse) : VercelResponse :=
  { r with finished := true }

/-- The triple a finished Vercel response object delivers. -/
def VercelResponse.toHttp (r : VercelResponse) : HttpResponse :=
  { statusCode := r.statusCode, headers := r.headers, body := r.body }

/-- Property read `obj.url` on a query object. -/
def getUrl (query : List (String × String)) : Option String :=
  query.lookup "url"

/-- The three CORS headers, in the order the handlers set them. -/
def corsHeaders : List (String × String) :=
  [("Access-Control-Allow-Origin", "*"),
   ("Access-Control-Allow-Methods", "GET, OPTIONS"),
   ("Access-Control-Allow-Headers", "Content-Type")]

/-- Body of the missing-parameter response of `src/api/proxy.js`. -/
def vercelMissingUrlBody : String :=
  "Error: Missing \"url\" query parameter. Please provide a URL to fetch. Example: /api/proxy?url=https://example.com"

/-- Body of the missing-parameter response of `src/proxy.js`. -/
def netlifyMissingUrlBody : String :=
  "Error: Missing \"url\" query parameter. Please provide a URL to fetch. Example: /.netlify/functions/proxy?url=https://example.com"

/-- Body of the malformed-URL response (the same in both files). -/
def malformedUrlBody : String :=
  "Error: The provided URL is malformed. Please ensure it is a valid web address."

/-- Body of the upstream-failure response. -/
def upstreamFailureBody (statusText errorText : String) : String :=
  "Failed to fetch content from target URL: " ++ statusText ++ ". Details: " ++ errorText

/-- Body of the transport-failure response. -/
def transportFailureBody (message : String) : String :=
  "Internal server error: Could not fetch content. Details: " ++ message

/-- The line both handlers log before fetching. -/
def proxyingLog (targetUrl : String) : Effect :=
  Effect.consoleLog ["Proxying request for: " ++ targetUrl]

/-- The line both handlers log for a non-ok upstream response. -/
def upstreamErrorLog (targetUrl : String) (status : Nat) (statusText errorText : String) :
    Effect :=
  Effect.consoleError ["Error fetching from target " ++ targetUrl ++ ": " ++ toString status ++
    " " ++ statusText ++ " - " ++ errorText]

/-- The line both handlers log in the `catch` block of the fetch. -/
def proxyFailedLog (targetUrl message : String) : Effect :=
  Effect.consoleError ["Proxy failed to fetch " ++ targetUrl ++ ":", message]

/-! ## The handlers -/

/-- The `catch` block of the Vercel handler (`src/api/proxy.js`, lines 54-58),
entered after the effects `before` with the caught error's message. -/
def handlerCatch (response : VercelResponse) (targetUrl : String) (before : List Effect)
    (message : String) : Run VercelResponse :=
  { effects := before ++ [proxyFailedLog targetUrl message],
    result := Except.ok ((response.status 500).send (transportFailureBody message)) }

/-- The Vercel function `handler(request, response)` of `src/api/proxy.js`.
The result is the response object as the handler leaves it. -/
def handler (afterScheme : String → Bool) (fetch : String → FetchOutcome)
    (request : VercelRequest) (response : VercelResponse) : Run VercelResponse :=
  let response := response.setHeader "Access-Control-Allow-Origin" "*"
  let response := response.setHeader "Access-Control-Allow-Methods" "GET, OPTIONS"
  let response := response.setHeader "Access-Control-Allow-Headers" "Content-Type"
  if request.method = "OPTIONS" then
    { effects := [], result := Except.ok ((response.status 200).end_) }
  else
    -- const targetUrl = request.query.url;
    match request.query with
    | none =>
      { effects := [], result := Except.error (Thrown.typeErrorReadOfNullish "url") }
    | some query =>
      match getUrl query with
      -- if (!targetUrl): undefined and the empty string are falsy
      | none =>
        { effects := [], result := Except.ok ((response.status 400).send vercelMissingUrlBody) }
      | some targetUrl =>
        if targetUrl = "" then
          { effects := [],
            result := Except.ok ((response.status 400).send vercelMissingUrlBody) }
        else if newURL afterScheme targetUrl = false then
          { effects := [], result := Except.ok ((response.status 400).send malformedUrlBody) }
        else
          let before := [proxyingLog targetUrl, Effect.fetchCall targetUrl]
          match fetch targetUrl with
          | FetchOutcome.rejects message => handlerCatch response targetUrl before message
          | FetchOutcome.resolves status statusText _ body =>
            if responseOk status = false then
              match body with
              | BodyRead.throws message => handlerCatch response targetUrl before message
              | BodyRead.text errorText =>
                { effects := before ++ [upstreamErrorLog targetUrl status statusText errorText],
                  result := Except.ok
                    ((response.status status).send (upstreamFailureBody statusText errorText)) }
            else
              match body with
              | BodyRead.throws message => handlerCatch response targetUrl before message
              | BodyRead.text content =>
                { effects := before, result := Except.ok ((response.status 200).send content) }

/-- The `catch` block of the Netlify handler (`src/proxy.js`, lines 76-84),
entered after the effects `before` with the caught error's message. -/
def exports.handlerCatch (headers : List (String × String)) (targetUrl : String)
    (before : List Effect) (message : String) : Run HttpResponse :=
  { effects := before ++ [proxyFailedLog targetUrl message],
    result := Except.ok
      { statusCode := 500, headers := headers, body := transportFailureBody message } }

/-- The Netlify function `exports.handler(event, context)` of `src/proxy.js`
(`context` is never read). -/
def exports.handler (afterScheme : String → Bool) (fetch : String → FetchOutcome)
    (event : NetlifyEvent) : Run HttpResponse :=
  let headers : List (String × String) :=
    [("Access-Control-Allow-Origin", "*"),
     ("Access-Control-Allow-Methods", "GET, OPTIONS"),
     ("Access-Control-Allow-Headers", "Content-Type")]
  if event.httpMethod = "OPTIONS" then
    { effects := [], result := Except.ok { statusCode := 200, headers := headers, body := "" } }
  else
    -- const targetUrl = event.queryStringParameters.url;
    match event.queryStringParameters with
    | none =>
      { effects := [], result := Except.error (Thrown.typeErrorReadOfNullish "url") }
    | some query =>
      match getUrl query with
      -- if (!targetUrl): undefined and the empty string are falsy
      | none =>
        { effects := [],
          result := Except.ok
            { statusCode := 400, headers := headers, body := netlifyMissingUrlBody } }
      | some targetUrl =>
        if targetUrl = "" then
          { effects := [],
            result := Except.ok
              { statusCode := 400, headers := headers, body := netlifyMissingUrlBody } }
        else if newURL afterScheme targetUrl = false then
          { effects := [],
            result := Except.ok
              { statusCode := 400, headers := headers, body := malformedUrlBody } }
        else
          let before := [proxyingLog targetUrl, Effect.fetchCall targetUrl]
          match fetch targetUrl with
          | FetchOutcome.rejects message =>
            exports.handlerCatch headers targetUrl before message
          | FetchOutcome.resolves status statusText _ body =>
            if responseOk status = false then
              match body with
              | BodyRead.throws message =>
                exports.handlerCatch headers targetUrl before message
              | BodyRead.text errorText =>
                { effects := before ++ [upstreamErrorLog targetUrl status statusText errorText],
                  result := Except.ok
                    { statusCode := status, headers := headers,
                      body := upstreamFailureBody statusText errorText } }
            else
              match body with
              | BodyRead.throws message =>
                exports.handlerCatch headers targetUrl before message
              | BodyRead.text content =>
                { effects := before,
                  result := Except.ok { statusCode := 200, headers := headers, body := content } }

/-- The inbound request of the specification: a method and the query-parameter
mapping (`none` when the envelope carries no mapping at all). -/
structure InboundRequest where
  method : String
  queryParams : Option (List (String × String))
deriving DecidableEq, Repr

/-- The request as the Vercel envelope carries it. -/
def InboundRequest.toVercel (req : InboundRequest) : VercelRequest :=
  { method := req.method, query := req.queryParams }

/-- The request as the Netlify envelope carries it. -/
def InboundRequest.toNetlify (req : InboundRequest) : NetlifyEvent :=
  { httpMethod := req.method, queryStringParameters := req.queryParams }

/-- The Vercel handler run on a fresh response object, the response object it
leaves translated to the common response triple. -/
def vercelRun (afterScheme : String → Bool) (fetch : String → FetchOutcome)
    (req : InboundRequest) : Run HttpResponse :=
  let r := handler afterScheme fetch req.toVercel VercelResponse.fresh
  { effects := r.effects, result := r.result.map VercelResponse.toHttp }

/-- The Netlify handler run on the event of the request. -/
def netlifyRun (afterScheme : String → Bool) (fetch : String → FetchOutcome)
    (req : InboundRequest) : Run HttpResponse :=
  exports.handler afterScheme fetch req.toNetlify

/-- The request takes the missing-parameter path: the method is not `OPTIONS`, the
mapping is present, and `url` is absent from it or empty. -/
def urlMissing (req : InboundRequest) : Bool :=
  match req.queryParams with
  | none => false
  | some query =>
    decide (req.method ≠ "OPTIONS") &&
      (match getUrl query with
       | none => true
       | some targetUrl => decide (targetUrl = ""))

/-- The request reaches the `fetch` call: the method is not `OPTIONS`, the mapping
is present, and `url` is a non-empty string the `URL` constructor accepts. -/
def reachesFetch (afterScheme : String → Bool) (req : InboundRequest) : Bool :=
  match req.queryParams with
  | none => false
  | some query =>
    decide (req.method ≠ "OPTIONS") &&
      (match getUrl query with
       | none => false
       | some targetUrl => decide (targetUrl ≠ "") && newURL afterScheme targetUrl)

/-- An upstream that answers every URL with the same outcome. -/
def constFetch (o : FetchOutcome) : String → FetchOutcome :=
  fun _ => o

/-- A permissive remainder of the URL parser: every input with a scheme parses. -/
def anyAfterScheme : String → Bool :=
  fun _ => true

/-! ## Theorems -/

/-- The `URL` constructor rejects the empty string, whatever the rest of the parser does. -/
theorem newURL_empty (afterScheme : String → Bool) : newURL afterScheme "" = false := by
  have h : urlParserInput "" = [] := by decide
  simp [newURL, h, schemeStartState]

/-- A string the `URL` constructor accepts is not empty. -/
theorem ne_empty_of_newURL {afterScheme : String → Bool} {url : String}
    (h : newURL afterScheme url = true) : url ≠ "" := by
  intro he
  rw [he, newURL_empty] at h
  exact Bool.noConfusion h

/-- The Vercel handler leaves exactly the three CORS headers on a fresh response object. -/
theorem fresh_cors_headers :
    (((VercelResponse.fresh.setHeader "Access-Control-Allow-Origin" "*").setHeader
      "Access-Control-Allow-Methods" "GET, OPTIONS").setHeader
      "Access-Control-Allow-Headers" "Content-Type").headers = corsHeaders := by
  decide

/-- C1: for a GET request (any method other than OPTIONS) whose `url` is accepted by
the `URL` constructor, when the fetch resolves with an `ok` status and the
body reads as text `t`, both handlers answer status 200 with the three CORS
headers and body exactly `t`, whatever the upstream status, status text and
headers were. -/
theorem C1_success_relays_body_verbatim (afterScheme : String → Bool)
    (fetch : String → FetchOutcome) (method : String) (query : List (String × String))
    (url : String) (status : Nat) (statusText : String) (upstreamHeaders : List (String × String))
    (t : String)
    (hmethod : method ≠ "OPTIONS")
    (hurl : getUrl query = some url)
    (hvalid : newURL afterScheme url = true)
    (hfetch : fetch url = FetchOutcome.resolves status statusText upstreamHeaders (BodyRead.text t))
    (hok : responseOk status = true) :
    (vercelRun afterScheme fetch { method := method, queryParams := some query }).result
        = Except.ok { statusCode := 200, headers := corsHeaders, body := t } ∧
    (netlifyRun afterScheme fetch { method := method, queryParams := some query }).result
        = Except.ok { statusCode := 200, headers := corsHeaders, body := t } := by
  have hne : url ≠ "" := ne_empty_of_newURL hvalid
  constructor
  · simp [vercelRun, handler, InboundRequest.toVercel, hmethod, hurl, hne, hvalid, hfetch, hok,
      Except.map, VercelResponse.toHttp, VercelResponse.send, VercelResponse.status,
      fresh_cors_headers]
  · simp [netlifyRun, exports.handler, InboundRequest.toNetlify, hmethod, hurl, hne, hvalid,
      hfetch, hok, corsHeaders]

/-- C1 at a concrete request: GET of `https://example.com`, upstream 200 with body `hello`. -/
theorem C1_success_relays_body_verbatim_witness :
    (vercelRun anyAfterScheme
        (constFetch (FetchOutcome.resolves 200 "OK" [("content-type", "text/html")]
          (BodyRead.text "hello")))
        { method := "GET", queryParams := some [("url", "https://example.com")] }).result
        = Except.ok { statusCode := 200, headers := corsHeaders, body := "hello" } ∧
    (netlifyRun anyAfterScheme
        (constFetch (FetchOutcome.resolves 200 "OK" [("content-type", "text/html")]
          (BodyRead.text "hello")))
        { method := "GET", queryParams := some [("url", "https://example.com")] }).result
        = Except.ok { statusCode := 200, headers := corsHeaders, body := "hello" } :=
  C1_success_relays_body_verbatim anyAfterScheme _ "GET" [("url", "https://example.com")]
    "https://example.com" 200 "OK" [("content-type", "text/html")] "hello"
    (by decide) (by decide) (by decide) rfl (by decide)

/-- C2: whenever either handler produces a response, on whichever path, its headers
are exactly the three CORS headers; and a handler fails to produce a response
only for a non-OPTIONS request whose query-parameter mapping is absent. -/
theorem C2_every_response_carries_cors_headers (afterScheme : String → Bool)
    (fetch : String → FetchOutcome) (req : InboundRequest) :
    (match (vercelRun afterScheme fetch req).result with
      | Except.ok r => r.headers =
          [("Access-Control-Allow-Origin", "*"),
           ("Access-Control-Allow-Methods", "GET, OPTIONS"),
           ("Access-Control-Allow-Headers", "Content-Type")]
      | Except.error _ => req.method ≠ "OPTIONS" ∧ req.queryParams = none) ∧
    (match (netlifyRun afterScheme fetch req).result with
      | Except.ok r => r.headers =
          [("Access-Control-Allow-Origin", "*"),
           ("Access-Control-Allow-Methods", "GET, OPTIONS"),
           ("Access-Control-Allow-Headers", "Content-Type")]
      | Except.error _ => req.method ≠ "OPTIONS" ∧ req.queryParams = none) := by
  obtain ⟨method, q⟩ := req
  have hc := fresh_cors_headers
  rw [corsHeaders] at hc
  by_cases hm : method = "OPTIONS"
  · simp [vercelRun, handler, InboundRequest.toVercel, netlifyRun, exports.handler,
      InboundRequest.toNetlify, Except.map, VercelResponse.toHttp, VercelResponse.end_,
      VercelResponse.status, hm, hc]
  rcases q with _ | query
  · simp [vercelRun, handler, InboundRequest.toVercel, netlifyRun, exports.handler,
      InboundRequest.toNetlify, Except.map, hm]
  rcases hu : getUrl query with _ | url
  · simp [vercelRun, handler, InboundRequest.toVercel, netlifyRun, exports.handler,
      InboundRequest.toNetlify, Except.map, VercelResponse.toHttp, VercelResponse.send,
      VercelResponse.status, hm, hu, hc]
  by_cases he : url = ""
  · simp [vercelRun, handler, InboundRequest.toVercel, netlifyRun, exports.handler,
      InboundRequest.toNetlify, Except.map, VercelResponse.toHttp, VercelResponse.send,
      VercelResponse.status, hm, hu, he, hc]
  cases hv : newURL afterScheme url
  · simp [vercelRun, handler, InboundRequest.toVercel, netlifyRun, exports.handler,
      InboundRequest.toNetlify, Except.map, VercelResponse.toHttp, VercelResponse.send,
      VercelResponse.status, hm, hu, he, hv, hc]
  rcases hf : fetch url with m | ⟨s, st, hs, body⟩
  · simp [vercelRun, handler, handlerCatch, InboundRequest.toVercel, netlifyRun,
      exports.handler, exports.handlerCatch, InboundRequest.toNetlify, Except.map,
      VercelResponse.toHttp, VercelResponse.send, VercelResponse.status, hm, hu, he, hv, hf, hc]
  cases hok : responseOk s <;> cases body <;>
    simp [vercelRun, handler, handlerCatch, InboundRequest.toVercel, netlifyRun,
      exports.handler, exports.handlerCatch, InboundRequest.toNetlify, Except.map,
      VercelResponse.toHttp, VercelResponse.send, VercelResponse.status, hm, hu, he, hv, hf,
      hok, hc]

/-- C3: for every request whose method is OPTIONS, whatever its query parameters
(mapping absent or present, `url` absent, empty, malformed or valid) and
whatever the upstream would answer, both handlers perform no effect and
respond with status 200, the three CORS headers and an empty body; the
Vercel handler leaves its response object ended, with exactly that content. -/
theorem C3_options_preflight (afterScheme : String → Bool) (fetch : String → FetchOutcome)
    (q : Option (List (String × String))) :
    vercelRun afterScheme fetch { method := "OPTIONS", queryParams := q }
        = { effects := [],
            result := Except.ok { statusCode := 200, headers := corsHeaders, body := "" } } ∧
    netlifyRun afterScheme fetch { method := "OPTIONS", queryParams := q }
        = { effects := [],
            result := Except.ok { statusCode := 200, headers := corsHeaders, body := "" } } ∧
    handler afterScheme fetch { method := "OPTIONS", query := q } VercelResponse.fresh
        = { effects := [],
            result := Except.ok
              { headers := corsHeaders, statusCode := 200, body := "", finished := true } } := by
  refine ⟨?_, ?_, ?_⟩
  · simp [vercelRun, handler, InboundRequest.toVercel, Except.map, VercelResponse.toHttp,
      VercelResponse.end_, VercelResponse.status, fresh_cors_headers]
    decide
  · simp [netlifyRun, exports.handler, InboundRequest.toNetlify, corsHeaders]
  · simp [handler, VercelResponse.end_, VercelResponse.status, fresh_cors_headers]
    decide

/-- C4, as stated, fails on the Netlify handler: for a GET request without `url`
it answers 400 with a message naming its own endpoint path, which is not the
fixed string of the claim. -/
theorem C4_netlify_missing_url_body_differs :
    (netlifyRun anyAfterScheme (constFetch (FetchOutcome.rejects ""))
        { method := "GET", queryParams := some [] }).result
      = Except.ok
          { statusCode := 400, headers := corsHeaders,
            body := "Error: Missing \"url\" query parameter. Please provide a URL to fetch. Example: /.netlify/functions/proxy?url=https://example.com" } ∧
    (netlifyRun anyAfterScheme (constFetch (FetchOutcome.rejects ""))
        { method := "GET", queryParams := some [] }).result
      ≠ Except.ok
          { statusCode := 400, headers := corsHeaders,
            body := "Error: Missing \"url\" query parameter. Please provide a URL to fetch. Example: /api/proxy?url=https://example.com" } := by
  decide

/-- C4, amended: for every GET request (any method other than OPTIONS) whose query
mapping has no `url` parameter, both handlers respond with status 400 and
perform no fetch; the Vercel body is the fixed string with the example path
`/api/proxy`, the Netlify body is the same sentence with the example path
`/.netlify/functions/proxy`. -/
theorem C4_missing_url_parameter (afterScheme : String → Bool) (fetch : String → FetchOutcome)
    (method : String) (query : List (String × String))
    (hmethod : method ≠ "OPTIONS")
    (hurl : getUrl query = none) :
    vercelRun afterScheme fetch { method := method, queryParams := some query }
      = { effects := [],
          result := Except.ok
            { statusCode := 400, headers := corsHeaders,
              body := "Error: Missing \"url\" query parameter. Please provide a URL to fetch. Example: /api/proxy?url=https://example.com" } } ∧
    netlifyRun afterScheme fetch { method := method, queryParams := some query }
      = { effects := [],
          result := Except.ok
            { statusCode := 400, headers := corsHeaders,
              body := "Error: Missing \"url\" query parameter. Please provide a URL to fetch. Example: /.netlify/functions/proxy?url=https://example.com" } } := by
  constructor
  · simp [vercelRun, handler, InboundRequest.toVercel, Except.map, VercelResponse.toHttp,
      VercelResponse.send, VercelResponse.status, fresh_cors_headers, hmethod, hurl,
      vercelMissingUrlBody]
  · simp [netlifyRun, exports.handler, InboundRequest.toNetlify, corsHeaders, hmethod, hurl,
      netlifyMissingUrlBody]

/-- C4 amended, at a concrete request: GET with another parameter but no `url`. -/
theorem C4_missing_url_parameter_witness :
    vercelRun anyAfterScheme (constFetch (FetchOutcome.rejects "unused"))
        { method := "GET", queryParams := some [("q", "1")] }
      = { effects := [],
          result := Except.ok
            { statusCode := 400, headers := corsHeaders,
              body := "Error: Missing \"url\" query parameter. Please provide a URL to fetch. Example: /api/proxy?url=https://example.com" } } ∧
    netlifyRun anyAfterScheme (constFetch (FetchOutcome.rejects "unused"))
        { method := "GET", queryParams := some [("q", "1")] }
      = { effects := [],
          result := Except.ok
            { statusCode := 400, headers := corsHeaders,
              body := "Error: Missing \"url\" query parameter. Please provide a URL to fetch. Example: /.netlify/functions/proxy?url=https://example.com" } } :=
  C4_missing_url_parameter anyAfterScheme _ "GET" [("q", "1")] (by decide) (by decide)

/-- C5, as stated, fails at the empty string: the empty string is no valid absolute
URL, yet for `url=` both handlers answer with the missing-parameter message,
not with the malformed-URL message. -/
theorem C5_empty_url_takes_missing_path :
    newURL anyAfterScheme "" = false ∧
    (vercelRun anyAfterScheme (constFetch (FetchOutcome.rejects ""))
        { method := "GET", queryParams := some [("url", "")] }).result
      = Except.ok
          { statusCode := 400, headers := corsHeaders,
            body := "Error: Missing \"url\" query parameter. Please provide a URL to fetch. Example: /api/proxy?url=https://example.com" } ∧
    (netlifyRun anyAfterScheme (constFetch (FetchOutcome.rejects ""))
        { method := "GET", queryParams := some [("url", "")] }).result
      = Except.ok
          { statusCode := 400, headers := corsHeaders,
            body := "Error: Missing \"url\" query parameter. Please provide a URL to fetch. Example: /.netlify/functions/proxy?url=https://example.com" } ∧
    (vercelRun anyAfterScheme (constFetch (FetchOutcome.rejects ""))
        { method := "GET", queryParams := some [("url", "")] }).result
      ≠ Except.ok
          { statusCode := 400, headers := corsHeaders,
            body := "Error: The provided URL is malformed. Please ensure it is a valid web address." } ∧
    (netlifyRun anyAfterScheme (constFetch (FetchOutcome.rejects ""))
        { method := "GET", queryParams := some [("url", "")] }).result
      ≠ Except.ok
          { statusCode := 400, headers := corsHeaders,
            body := "Error: The provided URL is malformed. Please ensure it is a valid web address." } := by
  decide

/-- C5, amended: for every GET request (any method other than OPTIONS) whose `url`
value is non-empty and not a syntactically valid absolute URL — `not-a-url`
and `://bad` included, whatever the rest of the URL parser accepts — both
handlers respond with status 400 and the malformed-URL message, and perform
no effect, so no upstream fetch. -/
theorem C5_malformed_url (afterScheme : String → Bool) (fetch : String → FetchOutcome)
    (method : String) (query : List (String × String)) (url : String)
    (hmethod : method ≠ "OPTIONS")
    (hurl : getUrl query = some url)
    (hbad : url = "not-a-url" ∨ url = "://bad" ∨
      (url ≠ "" ∧ newURL afterScheme url = false)) :
    vercelRun afterScheme fetch { method := method, queryParams := some query }
      = { effects := [],
          result := Except.ok
            { statusCode := 400, headers := corsHeaders,
              body := "Error: The provided URL is malformed. Please ensure it is a valid web address." } } ∧
    netlifyRun afterScheme fetch { method := method, queryParams := some query }
      = { effects := [],
          result := Except.ok
            { statusCode := 400, headers := corsHeaders,
              body := "Error: The provided URL is malformed. Please ensure it is a valid web address." } } := by
  have h : url ≠ "" ∧ newURL afterScheme url = false := by
    rcases hbad with h | h | h
    · subst h
      refine ⟨by decide, ?_⟩
      have hs : schemeStartState (urlParserInput "not-a-url") = false := by decide
      simp [newURL, hs]
    · subst h
      refine ⟨by decide, ?_⟩
      have hs : schemeStartState (urlParserInput "://bad") = false := by decide
      simp [newURL, hs]
    · exact h
  obtain ⟨hne, hv⟩ := h
  constructor
  · simp [vercelRun, handler, InboundRequest.toVercel, Except.map, VercelResponse.toHttp,
      VercelResponse.send, VercelResponse.status, fresh_cors_headers, hmethod, hurl, hne, hv,
      malformedUrlBody]
  · simp [netlifyRun, exports.handler, InboundRequest.toNetlify, corsHeaders, hmethod, hurl,
      hne, hv, malformedUrlBody]

/-- C5 amended, at a concrete request: GET with `url=not-a-url`, against a runtime
whose parser accepts everything after a scheme. -/
theorem C5_malformed_url_witness :
    vercelRun anyAfterScheme (constFetch (FetchOutcome.rejects "unused"))
        { method := "GET", queryParams := some [("url", "not-a-url")] }
      = { effects := [],
          result := Except.ok
            { statusCode := 400, headers := corsHeaders,
              body := "Error: The provided URL is malformed. Please ensure it is a valid web address." } } ∧
    netlifyRun anyAfterScheme (constFetch (FetchOutcome.rejects "unused"))
        { method := "GET", queryParams := some [("url", "not-a-url")] }
      = { effects := [],
          result := Except.ok
            { statusCode := 400, headers := corsHeaders,
              body := "Error: The provided URL is malformed. Please ensure it is a valid web address." } } :=
  C5_malformed_url anyAfterScheme _ "GET" [("url", "not-a-url")] "not-a-url"
    (by decide) (by decide) (Or.inl rfl)

/-- C6: for a GET request (any method other than OPTIONS) with a `url` the `URL`
constructor accepts, when the fetch resolves with a non-ok status `s`, status
text `st` and a body that reads as text `b`, both handlers respond with
status `s`, the CORS headers and the body
`Failed to fetch content from target URL: st. Details: b`. -/
theorem C6_upstream_error_pass_through (afterScheme : String → Bool)
    (fetch : String → FetchOutcome) (method : String) (query : List (String × String))
    (url : String) (s : Nat) (st : String) (upstreamHeaders : List (String × String))
    (b : String)
    (hmethod : method ≠ "OPTIONS")
    (hurl : getUrl query = some url)
    (hvalid : newURL afterScheme url = true)
    (hfetch : fetch url = FetchOutcome.resolves s st upstreamHeaders (BodyRead.text b))
    (hnotok : responseOk s = false) :
    (vercelRun afterScheme fetch { method := method, queryParams := some query }).result
      = Except.ok
          { statusCode := s, headers := corsHeaders,
            body := "Failed to fetch content from target URL: " ++ st ++ ". Details: " ++ b } ∧
    (netlifyRun afterScheme fetch { method := method, queryParams := some query }).result
      = Except.ok
          { statusCode := s, headers := corsHeaders,
            body := "Failed to fetch content from target URL: " ++ st ++ ". Details: " ++ b } := by
  have hne : url ≠ "" := ne_empty_of_newURL hvalid
  constructor
  · simp [vercelRun, handler, InboundRequest.toVercel, hmethod, hurl, hne, hvalid, hfetch,
      hnotok, Except.map, VercelResponse.toHttp, VercelResponse.send, VercelResponse.status,
      fresh_cors_headers, upstreamFailureBody]
  · simp [netlifyRun, exports.handler, InboundRequest.toNetlify, hmethod, hurl, hne, hvalid,
      hfetch, hnotok, corsHeaders, upstreamFailureBody]

/-- C6 at a concrete request: upstream 404 `Not Found` with body `not found`. -/
theorem C6_upstream_error_pass_through_witness :
    (vercelRun anyAfterScheme
        (constFetch (FetchOutcome.resolves 404 "Not Found" [] (BodyRead.text "not found")))
        { method := "GET", queryParams := some [("url", "https://example.com/x")] }).result
      = Except.ok
          { statusCode := 404, headers := corsHeaders,
            body := "Failed to fetch content from target URL: " ++ "Not Found" ++
              ". Details: " ++ "not found" } ∧
    (netlifyRun anyAfterScheme
        (constFetch (FetchOutcome.resolves 404 "Not Found" [] (BodyRead.text "not found")))
        { method := "GET", queryParams := some [("url", "https://example.com/x")] }).result
      = Except.ok
          { statusCode := 404, headers := corsHeaders,
            body := "Failed to fetch content from target URL: " ++ "Not Found" ++
              ". Details: " ++ "not found" } :=
  C6_upstream_error_pass_through anyAfterScheme _ "GET" [("url", "https://example.com/x")]
    "https://example.com/x" 404 "Not Found" [] "not found"
    (by decide) (by decide) (by decide) rfl (by decide)

/-- C7: for a GET request (any method other than OPTIONS) with a `url` the `URL`
constructor accepts, when the fetch rejects with an error of message `m`, or
resolves (with any status, ok or not) and reading the body as text throws an
error of message `m`, both handlers respond with status 500, the CORS headers
and the body `Internal server error: Could not fetch content. Details: m`. -/
theorem C7_transport_failure (afterScheme : String → Bool)
    (fetch : String → FetchOutcome) (method : String) (query : List (String × String))
    (url : String) (m : String)
    (hmethod : method ≠ "OPTIONS")
    (hurl : getUrl query = some url)
    (hvalid : newURL afterScheme url = true)
    (hfail : fetch url = FetchOutcome.rejects m ∨
      ∃ s st upstreamHeaders, fetch url = FetchOutcome.resolves s st upstreamHeaders
        (BodyRead.throws m)) :
    (vercelRun afterScheme fetch { method := method, queryParams := some query }).result
      = Except.ok
          { statusCode := 500, headers := corsHeaders,
            body := "Internal server error: Could not fetch content. Details: " ++ m } ∧
    (netlifyRun afterScheme fetch { method := method, queryParams := some query }).result
      = Except.ok
          { statusCode := 500, headers := corsHeaders,
            body := "Internal server error: Could not fetch content. Details: " ++ m } := by
  have hne : url ≠ "" := ne_empty_of_newURL hvalid
  rcases hfail with hf | ⟨s, st, hs, hf⟩
  · constructor
    · simp [vercelRun, handler, handlerCatch, InboundRequest.toVercel, hmethod, hurl, hne,
        hvalid, hf, Except.map, VercelResponse.toHttp, VercelResponse.send,
        VercelResponse.status, fresh_cors_headers, transportFailureBody]
    · simp [netlifyRun, exports.handler, exports.handlerCatch, InboundRequest.toNetlify,
        hmethod, hurl, hne, hvalid, hf, corsHeaders, transportFailureBody]
  · constructor
    · cases hok : responseOk s <;>
        simp [vercelRun, handler, handlerCatch, InboundRequest.toVercel, hmethod, hurl, hne,
          hvalid, hf, hok, Except.map, VercelResponse.toHttp, VercelResponse.send,
          VercelResponse.status, fresh_cors_headers, transportFailureBody]
    · cases hok : responseOk s <;>
        simp [netlifyRun, exports.handler, exports.handlerCatch, InboundRequest.toNetlify,
          hmethod, hurl, hne, hvalid, hf, hok, corsHeaders, transportFailureBody]

/-- C7 at a concrete request: the upstream answers 200 but reading its body throws. -/
theorem C7_transport_failure_witness :
    (vercelRun anyAfterScheme
        (constFetch (FetchOutcome.resolves 200 "OK" [] (BodyRead.throws "terminated")))
        { method := "GET", queryParams := some [("url", "http://localhost:1")] }).result
      = Except.ok
          { statusCode := 500, headers := corsHeaders,
            body := "Internal server error: Could not fetch content. Details: " ++
              "terminated" } ∧
    (netlifyRun anyAfterScheme
        (constFetch (FetchOutcome.resolves 200 "OK" [] (BodyRead.throws "terminated")))
        { method := "GET", queryParams := some [("url", "http://localhost:1")] }).result
      = Except.ok
          { statusCode := 500, headers := corsHeaders,
            body := "Internal server error: Could not fetch content. Details: " ++
              "terminated" } :=
  C7_transport_failure anyAfterScheme _ "GET" [("url", "http://localhost:1")]
    "http://localhost:1" "terminated"
    (by decide) (by decide) (by decide) (Or.inr ⟨200, "OK", [], rfl⟩)

/-- C8, as stated, fails: for a GET request whose query-parameter mapping is absent,
the read of `.url` raises a `TypeError` before any `try` block is entered,
and both handlers end with that exception instead of a response. -/
theorem C8_absent_query_mapping_throws :
    (handler anyAfterScheme (constFetch (FetchOutcome.rejects ""))
        { method := "GET", query := none } VercelResponse.fresh).result
      = Except.error (Thrown.typeErrorReadOfNullish "url") ∧
    (¬ ∃ r, (handler anyAfterScheme (constFetch (FetchOutcome.rejects ""))
        { method := "GET", query := none } VercelResponse.fresh).result = Except.ok r) ∧
    (exports.handler anyAfterScheme (constFetch (FetchOutcome.rejects ""))
        { httpMethod := "GET", queryStringParameters := none }).result
      = Except.error (Thrown.typeErrorReadOfNullish "url") ∧
    (¬ ∃ r, (exports.handler anyAfterScheme (constFetch (FetchOutcome.rejects ""))
        { httpMethod := "GET", queryStringParameters := none }).result = Except.ok r) := by
  have hv : (handler anyAfterScheme (constFetch (FetchOutcome.rejects ""))
      { method := "GET", query := none } VercelResponse.fresh).result
      = Except.error (Thrown.typeErrorReadOfNullish "url") := by decide
  have hn : (exports.handler anyAfterScheme (constFetch (FetchOutcome.rejects ""))
      { httpMethod := "GET", queryStringParameters := none }).result
      = Except.error (Thrown.typeErrorReadOfNullish "url") := by decide
  refine ⟨hv, ?_, hn, ?_⟩
  · rintro ⟨r, hr⟩
    rw [hv] at hr
    exact Except.noConfusion hr
  · rintro ⟨r, hr⟩
    rw [hn] at hr
    exact Except.noConfusion hr

/-- C8, amended: for every inbound request whose method is OPTIONS or whose
query-parameter mapping is present (any method, any `url` value), and every
upstream outcome (fetch rejects, body read throws, any status), neither
handler throws: the Vercel handler returns with the response object sent,
the Netlify handler returns a response object. -/
theorem C8_no_exception_escapes (afterScheme : String → Bool)
    (fetch : String → FetchOutcome) (req : InboundRequest)
    (hquery : req.method = "OPTIONS" ∨ req.queryParams ≠ none) :
    (∃ r, (handler afterScheme fetch req.toVercel VercelResponse.fresh).result = Except.ok r ∧
        r.finished = true) ∧
    (∃ r, (exports.handler afterScheme fetch req.toNetlify).result = Except.ok r) := by
  obtain ⟨method, q⟩ := req
  by_cases hm : method = "OPTIONS"
  · simp [handler, InboundRequest.toVercel, exports.handler, InboundRequest.toNetlify,
      VercelResponse.end_, hm]
  rcases q with _ | query
  · simp [hm] at hquery
  rcases hu : getUrl query with _ | url
  · simp [handler, InboundRequest.toVercel, exports.handler, InboundRequest.toNetlify,
      VercelResponse.send, hm, hu]
  by_cases he : url = ""
  · simp [handler, InboundRequest.toVercel, exports.handler, InboundRequest.toNetlify,
      VercelResponse.send, hm, hu, he]
  cases hv : newURL afterScheme url
  · simp [handler, InboundRequest.toVercel, exports.handler, InboundRequest.toNetlify,
      VercelResponse.send, hm, hu, he, hv]
  rcases hf : fetch url with m | ⟨s, st, hs, body⟩
  · simp [handler, handlerCatch, InboundRequest.toVercel, exports.handler,
      exports.handlerCatch, InboundRequest.toNetlify, VercelResponse.send, hm, hu, he, hv, hf]
  cases hok : responseOk s <;> cases body <;>
    simp [handler, handlerCatch, InboundRequest.toVercel, exports.handler,
      exports.handlerCatch, InboundRequest.toNetlify, VercelResponse.send, hm, hu, he, hv, hf,
      hok]

/-- C8 amended, at two concrete requests that enter the `try` block: a GET of
`http://localhost:1` whose fetch rejects, and a GET of `https://example.com`
whose upstream answers 502 but whose body read throws.  Each run makes its
one fetch call and still ends with a response. -/
theorem C8_no_exception_escapes_witness :
    (fetchCount (handler anyAfterScheme (constFetch (FetchOutcome.rejects "ECONNREFUSED"))
        (InboundRequest.toVercel
          { method := "GET", queryParams := some [("url", "http://localhost:1")] })
        VercelResponse.fresh).effects = 1 ∧
      fetchCount (exports.handler anyAfterScheme
        (constFetch (FetchOutcome.rejects "ECONNREFUSED"))
        (InboundRequest.toNetlify
          { method := "GET", queryParams := some [("url", "http://localhost:1")] })).effects
        = 1) ∧
    ((∃ r, (handler anyAfterScheme (constFetch (FetchOutcome.rejects "ECONNREFUSED"))
        (InboundRequest.toVercel
          { method := "GET", queryParams := some [("url", "http://localhost:1")] })
        VercelResponse.fresh).result = Except.ok r ∧ r.finished = true) ∧
      (∃ r, (exports.handler anyAfterScheme (constFetch (FetchOutcome.rejects "ECONNREFUSED"))
        (InboundRequest.toNetlify
          { method := "GET", queryParams := some [("url", "http://localhost:1")] })).result
        = Except.ok r)) ∧
    ((∃ r, (handler anyAfterScheme
        (constFetch (FetchOutcome.resolves 502 "Bad Gateway" [] (BodyRead.throws "terminated")))
        (InboundRequest.toVercel
          { method := "GET", queryParams := some [("url", "https://example.com")] })
        VercelResponse.fresh).result = Except.ok r ∧ r.finished = true) ∧
      (∃ r, (exports.handler anyAfterScheme
        (constFetch (FetchOutcome.resolves 502 "Bad Gateway" [] (BodyRead.throws "terminated")))
        (InboundRequest.toNetlify
          { method := "GET", queryParams := some [("url", "https://example.com")] })).result
        = Except.ok r)) :=
  ⟨by decide,
   C8_no_exception_escapes anyAfterScheme (constFetch (FetchOutcome.rejects "ECONNREFUSED"))
     { method := "GET", queryParams := some [("url", "http://localhost:1")] }
     (Or.inr (by decide)),
   C8_no_exception_escapes anyAfterScheme
     (constFetch (FetchOutcome.resolves 502 "Bad Gateway" [] (BodyRead.throws "terminated")))
     { method := "GET", queryParams := some [("url", "https://example.com")] }
     (Or.inr (by decide))⟩

/-- C9, as stated, fails: for a GET request without `url` the two handlers answer
with the same status and headers but different body strings. -/
theorem C9_missing_url_bodies_differ :
    (vercelRun anyAfterScheme (constFetch (FetchOutcome.rejects ""))
        { method := "GET", queryParams := some [] }).result
      = Except.ok { statusCode := 400, headers := corsHeaders, body := vercelMissingUrlBody } ∧
    (netlifyRun anyAfterScheme (constFetch (FetchOutcome.rejects ""))
        { method := "GET", queryParams := some [] }).result
      = Except.ok { statusCode := 400, headers := corsHeaders, body := netlifyMissingUrlBody } ∧
    vercelMissingUrlBody ≠ netlifyMissingUrlBody := by
  decide

/-- C9, amended: for every method, every query-parameter mapping and every upstream
outcome, the two handlers perform the same effects and, translated to
(statusCode, headers, body), give the same result — the same status code,
CORS headers and body string — except on the missing-parameter path
(`url` absent or empty), where both answer status 400 with the CORS headers
and each with its own message, naming its own endpoint path. -/
theorem C9_handlers_agree_up_to_envelope (afterScheme : String → Bool)
    (fetch : String → FetchOutcome) (req : InboundRequest) :
    if urlMissing req = true then
      vercelRun afterScheme fetch req
        = { effects := [],
            result := Except.ok
              { statusCode := 400, headers := corsHeaders, body := vercelMissingUrlBody } } ∧
      netlifyRun afterScheme fetch req
        = { effects := [],
            result := Except.ok
              { statusCode := 400, headers := corsHeaders, body := netlifyMissingUrlBody } }
    else
      vercelRun afterScheme fetch req = netlifyRun afterScheme fetch req := by
  obtain ⟨method, q⟩ := req
  have hc := fresh_cors_headers
  by_cases hm : method = "OPTIONS"
  · subst hm
    have hfalse : urlMissing { method := "OPTIONS", queryParams := q } = false := by
      cases q <;> simp [urlMissing]
    have hb : (((VercelResponse.fresh.setHeader "Access-Control-Allow-Origin" "*").setHeader
        "Access-Control-Allow-Methods" "GET, OPTIONS").setHeader
        "Access-Control-Allow-Headers" "Content-Type").body = "" := by decide
    simp [hfalse, vercelRun, handler, InboundRequest.toVercel, netlifyRun, exports.handler,
      InboundRequest.toNetlify, Except.map, VercelResponse.toHttp, VercelResponse.end_,
      VercelResponse.status, hc, hb, corsHeaders]
  rcases q with _ | query
  · simp [urlMissing, vercelRun, handler, InboundRequest.toVercel, netlifyRun, exports.handler,
      InboundRequest.toNetlify, Except.map, hm]
  rcases hu : getUrl query with _ | url
  · simp [urlMissing, vercelRun, handler, InboundRequest.toVercel, netlifyRun,
      exports.handler, InboundRequest.toNetlify, Except.map, VercelResponse.toHttp,
      VercelResponse.send, VercelResponse.status, hm, hu, hc, corsHeaders]
  by_cases he : url = ""
  · simp [urlMissing, vercelRun, handler, InboundRequest.toVercel, netlifyRun,
      exports.handler, InboundRequest.toNetlify, Except.map, VercelResponse.toHttp,
      VercelResponse.send, VercelResponse.status, hm, hu, he, hc, corsHeaders]
  cases hv : newURL afterScheme url
  · simp [urlMissing, vercelRun, handler, InboundRequest.toVercel, netlifyRun,
      exports.handler, InboundRequest.toNetlify, Except.map, VercelResponse.toHttp,
      VercelResponse.send, VercelResponse.status, hm, hu, he, hv, hc, corsHeaders]
  rcases hf : fetch url with m | ⟨s, st, hs, body⟩
  · simp [urlMissing, vercelRun, handler, handlerCatch, InboundRequest.toVercel, netlifyRun,
      exports.handler, exports.handlerCatch, InboundRequest.toNetlify, Except.map,
      VercelResponse.toHttp, VercelResponse.send, VercelResponse.status, hm, hu, he, hv, hf,
      hc, corsHeaders]
  cases hok : responseOk s <;> cases body <;>
    simp [urlMissing, vercelRun, handler, handlerCatch, InboundRequest.toVercel, netlifyRun,
      exports.handler, exports.handlerCatch, InboundRequest.toNetlify, Except.map,
      VercelResponse.toHttp, VercelResponse.send, VercelResponse.status, hm, hu, he, hv, hf,
      hok, hc, corsHeaders]

/-- C10, as stated, fails: a preflight request, a request without `url` and a
request with a malformed `url` are answered without any fetch call. -/
theorem C10_no_fetch_before_validation :
    fetchCount (vercelRun anyAfterScheme (constFetch (FetchOutcome.rejects ""))
        { method := "OPTIONS", queryParams := some [("url", "https://example.com")] }).effects
      = 0 ∧
    fetchCount (netlifyRun anyAfterScheme (constFetch (FetchOutcome.rejects ""))
        { method := "OPTIONS", queryParams := some [("url", "https://example.com")] }).effects
      = 0 ∧
    fetchCount (vercelRun anyAfterScheme (constFetch (FetchOutcome.rejects ""))
        { method := "GET", queryParams := some [] }).effects = 0 ∧
    fetchCount (netlifyRun anyAfterScheme (constFetch (FetchOutcome.rejects ""))
        { method := "GET", queryParams := some [("url", "not-a-url")] }).effects = 0 := by
  decide

/-- C10, amended: each inbound request results in at most one outbound fetch
attempt. For every request and every upstream outcome, either handler calls
`fetch` exactly once when the request passes validation (method other than
OPTIONS, mapping present, `url` non-empty and accepted by the `URL`
constructor) and not at all otherwise; it never retries. -/
theorem C10_at_most_one_fetch (afterScheme : String → Bool)
    (fetch : String → FetchOutcome) (req : InboundRequest) :
    fetchCount (vercelRun afterScheme fetch req).effects
        = (if reachesFetch afterScheme req = true then 1 else 0) ∧
    fetchCount (netlifyRun afterScheme fetch req).effects
        = (if reachesFetch afterScheme req = true then 1 else 0) ∧
    fetchCount (vercelRun afterScheme fetch req).effects ≤ 1 ∧
    fetchCount (netlifyRun afterScheme fetch req).effects ≤ 1 := by
  obtain ⟨method, q⟩ := req
  by_cases hm : method = "OPTIONS"
  · subst hm
    have hfalse : reachesFetch afterScheme { method := "OPTIONS", queryParams := q } = false := by
      cases q <;> simp [reachesFetch]
    simp [hfalse, fetchCount, vercelRun, handler, InboundRequest.toVercel, netlifyRun,
      exports.handler, InboundRequest.toNetlify]
  rcases q with _ | query
  · simp [reachesFetch, fetchCount, vercelRun, handler, InboundRequest.toVercel, netlifyRun,
      exports.handler, InboundRequest.toNetlify, hm]
  rcases hu : getUrl query with _ | url
  · simp [reachesFetch, fetchCount, vercelRun, handler, InboundRequest.toVercel, netlifyRun,
      exports.handler, InboundRequest.toNetlify, hm, hu]
  by_cases he : url = ""
  · simp [reachesFetch, fetchCount, vercelRun, handler, InboundRequest.toVercel, netlifyRun,
      exports.handler, InboundRequest.toNetlify, hm, hu, he]
  cases hv : newURL afterScheme url
  · simp [reachesFetch, fetchCount, vercelRun, handler, InboundRequest.toVercel, netlifyRun,
      exports.handler, InboundRequest.toNetlify, hm, hu, he, hv]
  rcases hf : fetch url with m | ⟨s, st, hs, body⟩
  · simp [reachesFetch, fetchCount, proxyingLog, proxyFailedLog, vercelRun, handler,
      handlerCatch, InboundRequest.toVercel, netlifyRun, exports.handler,
      exports.handlerCatch, InboundRequest.toNetlify, hm, hu, he, hv, hf]
  cases hok : responseOk s <;> cases body <;>
    simp [reachesFetch, fetchCount, proxyingLog, proxyFailedLog, upstreamErrorLog, vercelRun,
      handler, handlerCatch, InboundRequest.toVercel, netlifyRun, exports.handler,
      exports.handlerCatch, InboundRequest.toNetlify, hm, hu, he, hv, hf, hok]
